import Mathlib

/-!
Shallow embedding of the weather-refresh subsystem of `src/main.py` and
`src/models.py`: the data model (`City`, `DefaultCity`), the weather client
(`fetch_weather`), the cooldown gate (`check_update_cooldown`), the refresh
orchestrator (`update_weather`), and the two CRUD operations that write the
city store (`add_city`, `reset_cities_to_default`).

Modelling conventions:
* Temperatures, coordinates and timestamps are rationals (`ℚ`); a timestamp
  is a point on the wall clock measured in seconds, so `datetime.now() - t`
  becomes plain subtraction and `timedelta.total_seconds() >= 900` becomes
  `now - t ≥ 900`.
* `fastapi.HTTPException` is a pair of a status code and a detail string;
  raising it is modelled by `Except.error`.
* The network is an oracle `net : ℚ → ℚ → NetOutcome` that says, for a
  coordinate pair, what the single outbound `aiohttp` GET of `fetch_weather`
  observes.
* Each store-writing route returns the pair of its HTTP outcome and the
  store contents after the request; when the handler raises before
  `db.commit()`, the session is closed without a commit and the transaction
  rolls back, so the store component is the unchanged input.
-/

namespace WeatherApp

/-- `models.City`: one row of the `cities` table.  The autoincrement `id`
column is omitted: the refresh logic never reads it.  `temperature` and
`updated_at` are nullable columns. -/
structure City where
  name : String
  latitude : ℚ
  longitude : ℚ
  temperature : Option ℚ
  updated_at : Option ℚ
deriving DecidableEq, Repr

/-- `models.DefaultCity`: one row of the `default_cities` table (no
temperature or timestamp columns). -/
structure DefaultCity where
  name : String
  latitude : ℚ
  longitude : ℚ
deriving DecidableEq, Repr

/-- `fastapi.HTTPException`, reduced to the two fields the code sets. -/
structure HTTPException where
  status_code : Nat
  detail : String
deriving DecidableEq, Repr

/-- `fastapi.responses.RedirectResponse`, reduced to the two fields the
code sets. -/
structure Redirect where
  url : String
  status_code : Nat
deriving DecidableEq, Repr

/-- What the single outbound GET of `fetch_weather` observes.  `response`
carries the HTTP status together with the parsed JSON body restricted to
the `current_weather` / `temperature` path the code reads (outer `none`:
the body has no `current_weather` key; inner `none`: no `temperature` key
under it).  `clientError` is an `aiohttp.ClientError` from the transport:
connection refused, DNS failure, or exceeding the 10-second
`aiohttp.ClientTimeout(total=10)` bound, whose timeout errors are
`ClientError` subclasses. -/
inductive NetOutcome where
  | response (status : Nat) (current_weather : Option (Option ℚ))
  | clientError (msg : String)
deriving DecidableEq, Repr

/-- The `aiohttp.ClientTimeout(total=10)` bound on each request
(src/main.py line 72). -/
def requestTimeoutSeconds : Nat := 10

/-- `fetch_weather` (src/main.py lines 50-86): one GET against the
Open-Meteo forecast endpoint.  Non-200 status raises HTTP 503; an
`aiohttp.ClientError` (transport failure, including the 10-second timeout)
raises HTTP 500 with a network-error detail; a `KeyError` on the
`current_weather` / `temperature` lookup raises HTTP 500 with a
format-error detail naming the missing key; otherwise the temperature is
returned. -/
def fetch_weather (net : ℚ → ℚ → NetOutcome) (latitude longitude : ℚ) :
    Except HTTPException ℚ :=
  match net latitude longitude with
  | .response status current_weather =>
    if status ≠ 200 then
      .error ⟨503, "天气API请求失败，状态码：" ++ toString status⟩
    else
      match current_weather with
      | none => .error ⟨500, "API响应数据格式错误：缺少" ++ "current_weather" ++ "字段"⟩
      | some none => .error ⟨500, "API响应数据格式错误：缺少" ++ "temperature" ++ "字段"⟩
      | some (some t) => .ok t
  | .clientError msg => .error ⟨500, "网络请求错误：" ++ msg⟩

/-- Denotation of the query
`db.query(City.updated_at).order_by(City.updated_at.desc()).first()`
(src/main.py line 173): the maximum of the non-NULL `updated_at` values.
Under SQLite ordering, NULL sorts below every value, so `DESC` puts the
NULL rows last and the first row holds the greatest non-NULL timestamp
whenever one exists; the result is `none` when the table is empty or every
`updated_at` is NULL. -/
def maxUpdatedAt : List City → Option ℚ
  | [] => none
  | c :: rest =>
    match c.updated_at, maxUpdatedAt rest with
    | none, m => m
    | some t, none => some t
    | some t, some m => some (max t m)

/-- `check_update_cooldown` (src/main.py lines 163-181): refresh is
permitted when no city has ever been updated, and otherwise exactly when at
least 900 seconds have passed since the most recent update. -/
def check_update_cooldown (cities : List City) (now : ℚ) : Bool :=
  match maxUpdatedAt cities with
  | none => true
  | some t => decide (now - t ≥ 900)

/-- The HTTP 400 raised on a cooldown refusal (src/main.py lines 280-283). -/
def cooldownError : HTTPException :=
  ⟨400, "距离上次更新不足15分钟,请稍后再试"⟩

/-- The HTTP 400 raised when the store has no cities (src/main.py line 288). -/
def noCitiesError : HTTPException :=
  ⟨400, "当前无城市数据，无法更新温度"⟩

/-- The fan-out/fan-in `asyncio.gather(*tasks)` over one
`fetch_weather(city.latitude, city.longitude)` task per city in list order
(src/main.py lines 292-295).  On full success it yields the temperatures in
city order; when some task raises, `gather` re-raises one of the raised
exceptions, modelled deterministically as the one of the first failing task
in list order (the claims depend only on whether some task fails, not on
which exception is surfaced). -/
def gatherTemps (net : ℚ → ℚ → NetOutcome) :
    List City → Except HTTPException (List ℚ)
  | [] => .ok []
  | c :: rest =>
    match fetch_weather net c.latitude c.longitude with
    | .error e => .error e
    | .ok t =>
      match gatherTemps net rest with
      | .error e => .error e
      | .ok ts => .ok (t :: ts)

/-- `update_weather` route (src/main.py lines 273-307).  `checkTime` is the
`datetime.now()` read inside `check_update_cooldown`; `writeTime` is the
`current_time = datetime.now()` taken after the gather completes.  The
second component is the store after the request: unchanged on every raising
path (no commit happened), and on full success every city of the list,
in order, paired by `zip` with its gathered temperature and stamped with
the single `writeTime`, committed as one batch. -/
def update_weather (net : ℚ → ℚ → NetOutcome) (cities : List City)
    (checkTime writeTime : ℚ) : Except HTTPException Redirect × List City :=
  if !check_update_cooldown cities checkTime then
    (.error cooldownError, cities)
  else if cities.isEmpty then
    (.error noCitiesError, cities)
  else
    match gatherTemps net cities with
    | .error e => (.error ⟨e.status_code, e.detail⟩, cities)
    | .ok temperatures =>
      (.ok ⟨"/", 303⟩,
        (cities.zip temperatures).map fun p =>
          { p.1 with temperature := some p.2, updated_at := some writeTime })

/-- `add_city` route (src/main.py lines 220-242): rejects a duplicate
(trimmed) name with HTTP 400 and leaves the store unchanged; otherwise
appends a city whose nullable `temperature` and `updated_at` columns are
NULL and redirects to `/`. -/
def add_city (cities : List City) (name : String) (latitude longitude : ℚ) :
    Except HTTPException Redirect × List City :=
  if cities.any fun c => c.name = name.trim then
    (.error ⟨400, "城市「" ++ name ++ "」已存在，不可重复添加"⟩, cities)
  else
    (.ok ⟨"/", 303⟩, cities ++ [⟨name.trim, latitude, longitude, none, none⟩])

/-- `reset_cities_to_default` together with its `/cities/reset` route
(src/main.py lines 137-160 and 264-270): replaces the store with the
default cities, each with NULL `temperature` and `updated_at`.  When the
default table is empty, the HTTP 500 aborts the request before
`db.commit()`, so the pending delete rolls back and the store is
unchanged. -/
def reset_cities_to_default (defaults : List DefaultCity) (cities : List City) :
    Except HTTPException Redirect × List City :=
  if defaults.isEmpty then
    (.error ⟨500, "默认城市数据为空，无法重置"⟩, cities)
  else
    (.ok ⟨"/", 303⟩,
      defaults.map fun d => ⟨d.name, d.latitude, d.longitude, none, none⟩)

/-- §3 invariant of the spec: `temperature` and `updated_at` are both unset
or both set. -/
def pairedCity (c : City) : Prop :=
  c.temperature = none ↔ c.updated_at = none

instance (c : City) : Decidable (pairedCity c) := by
  unfold pairedCity; infer_instance

/-- Spec-side reading of the §4.1 taxonomy on the exceptions the code
raises: `UpstreamUnavailable` is the HTTP 503 raised for a non-success
upstream status. -/
def isUpstreamUnavailable (e : HTTPException) : Prop :=
  e.status_code = 503

/-- Spec-side reading of `NetworkError`: the HTTP 500 whose detail is the
network-error message built from the `aiohttp.ClientError`. -/
def isNetworkError (e : HTTPException) : Prop :=
  e.status_code = 500 ∧ ∃ msg, e.detail = "网络请求错误：" ++ msg

/-- Spec-side reading of `MalformedResponse`: the HTTP 500 whose detail is
the format-error message naming the missing JSON key. -/
def isMalformedResponse (e : HTTPException) : Prop :=
  e.status_code = 500 ∧
    ∃ key, e.detail = "API响应数据格式错误：缺少" ++ key ++ "字段"

/-! ### Properties of the cooldown gate -/

theorem maxUpdatedAt_eq_none_iff (cities : List City) :
    maxUpdatedAt cities = none ↔ ∀ c ∈ cities, c.updated_at = none := by
  induction cities with
  | nil => simp [maxUpdatedAt]
  | cons c rest ih =>
    cases hc : c.updated_at with
    | none =>
      simp only [maxUpdatedAt, hc]
      rw [ih]
      simp [hc]
    | some t =>
      cases hr : maxUpdatedAt rest with
      | none => simp [maxUpdatedAt, hc, hr]
      | some m => simp [maxUpdatedAt, hc, hr]

theorem maxUpdatedAt_spec (cities : List City) (m : ℚ)
    (h : maxUpdatedAt cities = some m) :
    m ∈ cities.filterMap City.updated_at ∧
      ∀ t ∈ cities.filterMap City.updated_at, t ≤ m := by
  induction cities generalizing m with
  | nil => simp [maxUpdatedAt] at h
  | cons c rest ih =>
    cases hc : c.updated_at with
    | none =>
      simp only [maxUpdatedAt, hc] at h
      obtain ⟨hmem, hub⟩ := ih m h
      refine ⟨?_, ?_⟩
      · simp [List.filterMap_cons, hc, hmem]
      · intro t ht
        rw [List.filterMap_cons, hc] at ht
        exact hub t ht
    | some t =>
      cases hr : maxUpdatedAt rest with
      | none =>
        simp only [maxUpdatedAt, hc, hr, Option.some.injEq] at h
        subst h
        have hall := (maxUpdatedAt_eq_none_iff rest).mp hr
        have hfm : rest.filterMap City.updated_at = [] := by
          simp [List.filterMap_eq_nil_iff]
          intro c' hc'
          simp [hall c' hc']
        refine ⟨?_, ?_⟩
        · simp [List.filterMap_cons, hc]
        · intro t' ht'
          rw [List.filterMap_cons, hc, hfm] at ht'
          simp at ht'
          exact le_of_eq ht'
      | some m' =>
        simp only [maxUpdatedAt, hc, hr, Option.some.injEq] at h
        subst h
        obtain ⟨hmem, hub⟩ := ih m' hr
        refine ⟨?_, ?_⟩
        · rcases le_total t m' with hle | hle
          · rw [max_eq_right hle]
            simp [List.filterMap_cons, hc, hmem]
          · rw [max_eq_left hle]
            simp [List.filterMap_cons, hc]
        · intro t' ht'
          rw [List.filterMap_cons, hc] at ht'
          rcases List.mem_cons.mp ht' with rfl | ht'
          · exact le_max_left _ _
          · exact le_trans (hub t' ht') (le_max_right _ _)

/-- **C2.** The cooldown gate permits a refresh iff either every city has
an unset `updated_at` (in particular on the empty store) or at least 900
seconds have passed since the maximum set timestamp; the 900-second
boundary itself is permitted because the comparison is `≥`. -/
theorem cooldown_gate_iff (cities : List City) (now : ℚ) :
    check_update_cooldown cities now = true ↔
      ((∀ c ∈ cities, c.updated_at = none) ∨
        ∃ m, m ∈ cities.filterMap City.updated_at ∧
          (∀ t ∈ cities.filterMap City.updated_at, t ≤ m) ∧
          now - m ≥ 900) := by
  unfold check_update_cooldown
  cases hmax : maxUpdatedAt cities with
  | none =>
    simp only [true_iff]
    exact Or.inl ((maxUpdatedAt_eq_none_iff cities).mp hmax)
  | some m =>
    simp only [decide_eq_true_eq]
    constructor
    · intro h
      obtain ⟨hmem, hub⟩ := maxUpdatedAt_spec cities m hmax
      exact Or.inr ⟨m, hmem, hub, h⟩
    · rintro (hall | ⟨m', hmem', hub', hge'⟩)
      · have : maxUpdatedAt cities = none :=
          (maxUpdatedAt_eq_none_iff cities).mpr hall
        rw [hmax] at this
        exact Option.noConfusion this
      · obtain ⟨hmem, hub⟩ := maxUpdatedAt_spec cities m hmax
        have h1 : m ≤ m' := hub' m hmem
        have h2 : m' ≤ m := hub m' hmem'
        have hmm : m = m' := le_antisymm h1 h2
        rw [hmm]
        exact hge'

/-! ### Properties of the fan-out/fan-in gather -/

theorem gatherTemps_ok_length (net : ℚ → ℚ → NetOutcome) (cities : List City)
    (ts : List ℚ) (h : gatherTemps net cities = .ok ts) :
    ts.length = cities.length := by
  induction cities generalizing ts with
  | nil =>
    simp only [gatherTemps, Except.ok.injEq] at h
    subst h
    rfl
  | cons c rest ih =>
    cases hf : fetch_weather net c.latitude c.longitude with
    | error e => simp [gatherTemps, hf] at h
    | ok t =>
      cases hr : gatherTemps net rest with
      | error e => simp [gatherTemps, hf, hr] at h
      | ok ts' =>
        simp only [gatherTemps, hf, hr, Except.ok.injEq] at h
        subst h
        simp [ih ts' hr]

theorem gatherTemps_ok_of_forall (net : ℚ → ℚ → NetOutcome) (cities : List City)
    (h : ∀ c ∈ cities, ∃ t, fetch_weather net c.latitude c.longitude = .ok t) :
    ∃ ts, gatherTemps net cities = .ok ts := by
  induction cities with
  | nil => exact ⟨[], rfl⟩
  | cons c rest ih =>
    obtain ⟨t, ht⟩ := h c (List.mem_cons_self c rest)
    obtain ⟨ts, hts⟩ := ih fun c' hc' => h c' (List.mem_cons_of_mem c hc')
    exact ⟨t :: ts, by simp [gatherTemps, ht, hts]⟩

theorem gatherTemps_error_of_exists (net : ℚ → ℚ → NetOutcome) (cities : List City)
    (h : ∃ c ∈ cities, ∃ e, fetch_weather net c.latitude c.longitude = .error e) :
    ∃ e, gatherTemps net cities = .error e ∧
      ∃ c ∈ cities, fetch_weather net c.latitude c.longitude = .error e := by
  induction cities with
  | nil => simp at h
  | cons c rest ih =>
    cases hf : fetch_weather net c.latitude c.longitude with
    | error e =>
      exact ⟨e, by simp [gatherTemps, hf], c, List.mem_cons_self c rest, hf⟩
    | ok t =>
      have hrest : ∃ c' ∈ rest, ∃ e,
          fetch_weather net c'.latitude c'.longitude = .error e := by
        obtain ⟨c', hc', e, he⟩ := h
        rcases List.mem_cons.mp hc' with rfl | hc'
        · rw [hf] at he
          exact Except.noConfusion he
        · exact ⟨c', hc', e, he⟩
      obtain ⟨e, hge, c', hc', he⟩ := ih hrest
      exact ⟨e, by simp [gatherTemps, hf, hge], c', List.mem_cons_of_mem c hc', he⟩

theorem gatherTemps_ok_get (net : ℚ → ℚ → NetOutcome) (cities : List City)
    (ts : List ℚ) (h : gatherTemps net cities = .ok ts) (i : Nat)
    (hi : i < cities.length) (hi' : i < ts.length) :
    fetch_weather net (cities.get ⟨i, hi⟩).latitude (cities.get ⟨i, hi⟩).longitude
      = .ok (ts.get ⟨i, hi'⟩) := by
  induction cities generalizing ts i with
  | nil => simp at hi
  | cons c rest ih =>
    cases hf : fetch_weather net c.latitude c.longitude with
    | error e => simp [gatherTemps, hf] at h
    | ok t =>
      cases hr : gatherTemps net rest with
      | error e => simp [gatherTemps, hf, hr] at h
      | ok ts' =>
        simp only [gatherTemps, hf, hr, Except.ok.injEq] at h
        subst h
        cases i with
        | zero => simpa using hf
        | succ n =>
          exact ih ts' hr n (Nat.succ_lt_succ_iff.mp hi) (Nat.succ_lt_succ_iff.mp hi')

/-! ### Unfolding lemmas for the orchestrator -/

theorem update_weather_of_cooldown (net : ℚ → ℚ → NetOutcome)
    (cities : List City) (tc tw : ℚ)
    (h : check_update_cooldown cities tc = false) :
    update_weather net cities tc tw = (.error cooldownError, cities) := by
  simp [update_weather, h]

theorem update_weather_gather_error (net : ℚ → ℚ → NetOutcome)
    (cities : List City) (tc tw : ℚ) (e : HTTPException)
    (hcool : check_update_cooldown cities tc = true) (hne : cities ≠ [])
    (hg : gatherTemps net cities = .error e) :
    update_weather net cities tc tw = (.error e, cities) := by
  simp [update_weather, hcool, hne, hg]

theorem update_weather_success (net : ℚ → ℚ → NetOutcome)
    (cities : List City) (tc tw : ℚ) (ts : List ℚ)
    (hcool : check_update_cooldown cities tc = true) (hne : cities ≠ [])
    (hg : gatherTemps net cities = .ok ts) :
    update_weather net cities tc tw =
      (.ok ⟨"/", 303⟩,
        (cities.zip ts).map fun p =>
          { p.1 with temperature := some p.2, updated_at := some tw }) := by
  simp [update_weather, hcool, hne, hg]

theorem update_weather_ok_inv (net : ℚ → ℚ → NetOutcome)
    (cities : List City) (tc tw : ℚ) (r : Redirect)
    (h : (update_weather net cities tc tw).1 = .ok r) :
    check_update_cooldown cities tc = true ∧ cities ≠ [] ∧
      ∃ ts, gatherTemps net cities = .ok ts := by
  cases hc : check_update_cooldown cities tc with
  | false =>
    rw [update_weather_of_cooldown net cities tc tw hc] at h
    exact Except.noConfusion h
  | true =>
    by_cases hne : cities = []
    · subst hne
      exact Except.noConfusion h
    · cases hg : gatherTemps net cities with
      | error e =>
        rw [update_weather_gather_error net cities tc tw e hc hne hg] at h
        exact Except.noConfusion h
      | ok ts => exact ⟨rfl, hne, ts, rfl⟩

theorem zipMapStore_length (cities : List City) (ts : List ℚ) (tw : ℚ)
    (hlen : ts.length = cities.length) :
    ((cities.zip ts).map fun p =>
      { p.1 with temperature := some p.2, updated_at := some tw }).length
      = cities.length := by
  rw [List.length_map, List.length_zip, hlen, Nat.min_self]

theorem zipMapStore_get (cities : List City) (ts : List ℚ) (tw : ℚ)
    (i : Nat) (hi : i < cities.length) (hits : i < ts.length)
    (hi2 : i < ((cities.zip ts).map fun p =>
      { p.1 with temperature := some p.2, updated_at := some tw }).length) :
    ((cities.zip ts).map fun p =>
        { p.1 with temperature := some p.2, updated_at := some tw }).get ⟨i, hi2⟩
      = { cities.get ⟨i, hi⟩ with
          temperature := some (ts.get ⟨i, hits⟩), updated_at := some tw } := by
  simp [List.get_eq_getElem, List.getElem_map, List.getElem_zip]

/-! ### The claims about the orchestrator -/

/-- **C1.** In a refresh cycle that reaches the fetch phase (cooldown
passed, store nonempty), if at least one per-city fetch fails, then the
operation reports one of the fetch failures and the store is left exactly
as it was: no city's temperature or `updated_at` changes. -/
theorem refresh_failure_all_or_nothing (net : ℚ → ℚ → NetOutcome)
    (cities : List City) (tc tw : ℚ)
    (hcool : check_update_cooldown cities tc = true) (hne : cities ≠ [])
    (hfail : ∃ c ∈ cities, ∃ e,
      fetch_weather net c.latitude c.longitude = .error e) :
    (∃ e, (update_weather net cities tc tw).1 = .error e ∧
        ∃ c ∈ cities, fetch_weather net c.latitude c.longitude = .error e) ∧
      (update_weather net cities tc tw).2 = cities := by
  obtain ⟨e, hg, c, hc, he⟩ := gatherTemps_error_of_exists net cities hfail
  rw [update_weather_gather_error net cities tc tw e hcool hne hg]
  exact ⟨⟨e, rfl, c, hc, he⟩, rfl⟩

/-- **C3.** In a refresh cycle in which every fetch succeeds, the operation
succeeds, every city of the store is written, all written cities carry the
single `writeTime` timestamp taken after the gather completes, and the
`i`-th city's temperature is the value fetched for its own coordinates. -/
theorem refresh_success_single_timestamp (net : ℚ → ℚ → NetOutcome)
    (cities : List City) (tc tw : ℚ)
    (hcool : check_update_cooldown cities tc = true) (hne : cities ≠ [])
    (hok : ∀ c ∈ cities, ∃ t, fetch_weather net c.latitude c.longitude = .ok t) :
    (update_weather net cities tc tw).1 = .ok ⟨"/", 303⟩ ∧
      (update_weather net cities tc tw).2.length = cities.length ∧
      (∀ c ∈ (update_weather net cities tc tw).2, c.updated_at = some tw) ∧
      ∀ i, ∀ hi : i < cities.length, ∃ t,
        fetch_weather net (cities.get ⟨i, hi⟩).latitude
            (cities.get ⟨i, hi⟩).longitude = .ok t ∧
          ∃ hi2 : i < (update_weather net cities tc tw).2.length,
            ((update_weather net cities tc tw).2.get ⟨i, hi2⟩).temperature
              = some t := by
  obtain ⟨ts, hg⟩ := gatherTemps_ok_of_forall net cities hok
  have hlen := gatherTemps_ok_length net cities ts hg
  rw [update_weather_success net cities tc tw ts hcool hne hg]
  refine ⟨rfl, zipMapStore_length cities ts tw hlen, ?_, ?_⟩
  · intro c hc
    obtain ⟨p, _, rfl⟩ := List.mem_map.mp hc
    rfl
  · intro i hi
    have hits : i < ts.length := hlen ▸ hi
    have hi2 : i < ((cities.zip ts).map fun p =>
        { p.1 with temperature := some p.2, updated_at := some tw }).length :=
      (zipMapStore_length cities ts tw hlen) ▸ hi
    refine ⟨ts.get ⟨i, hits⟩, gatherTemps_ok_get net cities ts hg i hi hits,
      hi2, ?_⟩
    rw [zipMapStore_get cities ts tw i hi hits hi2]

/-- **C4.** When the cooldown gate refuses, the operation raises exactly the
cooldown HTTP 400 and leaves the store untouched; its result does not
depend on the network oracle at all, so no fetch is performed. -/
theorem cooldown_refusal_no_fetch_no_write (net netOther : ℚ → ℚ → NetOutcome)
    (cities : List City) (tc tw twOther : ℚ)
    (h : check_update_cooldown cities tc = false) :
    update_weather net cities tc tw = (.error cooldownError, cities) ∧
      update_weather net cities tc tw = update_weather netOther cities tc twOther := by
  refine ⟨update_weather_of_cooldown net cities tc tw h, ?_⟩
  rw [update_weather_of_cooldown net cities tc tw h,
    update_weather_of_cooldown netOther cities tc twOther h]

/-- **C9.** On an empty city store the cooldown query finds no timestamp, so
the gate permits, and the operation raises the no-cities HTTP 400, writes
nothing, and never consults the network oracle. -/
theorem refresh_empty_store_no_cities (net netOther : ℚ → ℚ → NetOutcome)
    (tc tw tcOther twOther : ℚ) :
    update_weather net [] tc tw = (.error noCitiesError, []) ∧
      update_weather net [] tc tw = update_weather netOther [] tcOther twOther :=
  ⟨rfl, rfl⟩

/-- **C5.** Classification of a single fetch failure, with the 10-second
transport bound of the code: a non-success upstream status raises the 503
read as `UpstreamUnavailable`; an `aiohttp.ClientError` (connection
refused, DNS failure, or exceeding the timeout, whose errors are
`ClientError` subclasses) raises the 500 read as `NetworkError`; a missing
temperature field in an otherwise successful response raises the 500 read
as `MalformedResponse`. -/
theorem fetch_failure_classification (net : ℚ → ℚ → NetOutcome) (lat lon : ℚ) :
    requestTimeoutSeconds = 10 ∧
      (∀ status cw, net lat lon = .response status cw → status ≠ 200 →
        ∃ e, fetch_weather net lat lon = .error e ∧ isUpstreamUnavailable e) ∧
      (∀ msg, net lat lon = .clientError msg →
        ∃ e, fetch_weather net lat lon = .error e ∧ isNetworkError e) ∧
      (∀ cw, net lat lon = .response 200 cw → cw.bind id = none →
        ∃ e, fetch_weather net lat lon = .error e ∧ isMalformedResponse e) := by
  refine ⟨rfl, ?_, ?_, ?_⟩
  · intro status cw hnet hstatus
    refine ⟨⟨503, "天气API请求失败，状态码：" ++ toString status⟩, ?_, rfl⟩
    unfold fetch_weather
    rw [hnet]
    simp [hstatus]
  · intro msg hnet
    refine ⟨⟨500, "网络请求错误：" ++ msg⟩, ?_, rfl, msg, rfl⟩
    unfold fetch_weather
    rw [hnet]
  · intro cw hnet hcw
    cases cw with
    | none =>
      refine ⟨⟨500, "API响应数据格式错误：缺少" ++ "current_weather" ++ "字段"⟩,
        ?_, rfl, "current_weather", rfl⟩
      unfold fetch_weather
      rw [hnet]
      simp
    | some o =>
      cases o with
      | none =>
        refine ⟨⟨500, "API响应数据格式错误：缺少" ++ "temperature" ++ "字段"⟩,
          ?_, rfl, "temperature", rfl⟩
        unfold fetch_weather
        rw [hnet]
        simp
      | some t => simp [Option.bind] at hcw

/-- **C6 (amended).** A fully successful refresh cycle succeeds and updates
as many cities as the store holds, but the success value is the fixed
redirect to `/` with status 303 and does not carry that count. -/
theorem refresh_success_redirect_count (net : ℚ → ℚ → NetOutcome)
    (cities : List City) (tc tw : ℚ)
    (hcool : check_update_cooldown cities tc = true) (hne : cities ≠ [])
    (hok : ∀ c ∈ cities, ∃ t, fetch_weather net c.latitude c.longitude = .ok t) :
    (update_weather net cities tc tw).1 = .ok ⟨"/", 303⟩ ∧
      (update_weather net cities tc tw).2.length = cities.length := by
  obtain ⟨ts, hg⟩ := gatherTemps_ok_of_forall net cities hok
  have hlen := gatherTemps_ok_length net cities ts hg
  rw [update_weather_success net cities tc tw ts hcool hne hg]
  exact ⟨rfl, zipMapStore_length cities ts tw hlen⟩

theorem update_weather_store_eq_or (net : ℚ → ℚ → NetOutcome)
    (cities : List City) (tc tw : ℚ) :
    (update_weather net cities tc tw).2 = cities ∨
      ∃ ts, (update_weather net cities tc tw).2 =
        (cities.zip ts).map fun p =>
          { p.1 with temperature := some p.2, updated_at := some tw } := by
  cases hc : check_update_cooldown cities tc with
  | false =>
    rw [update_weather_of_cooldown net cities tc tw hc]
    exact Or.inl rfl
  | true =>
    by_cases hne : cities = []
    · subst hne
      exact Or.inl rfl
    · cases hg : gatherTemps net cities with
      | error e =>
        rw [update_weather_gather_error net cities tc tw e hc hne hg]
        exact Or.inl rfl
      | ok ts =>
        rw [update_weather_success net cities tc tw ts hc hne hg]
        exact Or.inr ⟨ts, rfl⟩

/-- **C7.** Adding a city, resetting to defaults and refreshing all
preserve the §3 pairing invariant: a city's `temperature` and `updated_at`
are both unset or both set, never one without the other. -/
theorem store_ops_preserve_pairing (cities : List City)
    (defaults : List DefaultCity) (nm : String) (lat lon : ℚ)
    (net : ℚ → ℚ → NetOutcome) (tc tw : ℚ)
    (h : ∀ c ∈ cities, pairedCity c) :
    (∀ c ∈ (add_city cities nm lat lon).2, pairedCity c) ∧
      (∀ c ∈ (reset_cities_to_default defaults cities).2, pairedCity c) ∧
      (∀ c ∈ (update_weather net cities tc tw).2, pairedCity c) := by
  refine ⟨?_, ?_, ?_⟩
  · intro c hc
    unfold add_city at hc
    by_cases hdup : cities.any fun c' => c'.name = nm.trim
    · rw [if_pos hdup] at hc
      exact h c hc
    · rw [if_neg hdup] at hc
      rcases List.mem_append.mp hc with hc | hc
      · exact h c hc
      · rw [List.mem_singleton.mp hc]
        exact Iff.rfl
  · intro c hc
    unfold reset_cities_to_default at hc
    by_cases hde : defaults.isEmpty
    · rw [if_pos hde] at hc
      exact h c hc
    · rw [if_neg hde] at hc
      obtain ⟨d, _, rfl⟩ := List.mem_map.mp hc
      exact Iff.rfl
  · intro c hc
    rcases update_weather_store_eq_or net cities tc tw with heq | ⟨ts, heq⟩
    · rw [heq] at hc
      exact h c hc
    · rw [heq] at hc
      obtain ⟨p, _, rfl⟩ := List.mem_map.mp hc
      simp [pairedCity]

/-! ### Idempotence within the cooldown window -/

theorem maxUpdatedAt_const (s : List City) (t : ℚ) (hne : s ≠ [])
    (h : ∀ c ∈ s, c.updated_at = some t) : maxUpdatedAt s = some t := by
  induction s with
  | nil => exact absurd rfl hne
  | cons c rest ih =>
    have hc := h c (List.mem_cons_self c rest)
    rcases eq_or_ne rest [] with rfl | hrest
    · simp [maxUpdatedAt, hc]
    · have hr := ih hrest fun c' h' => h c' (List.mem_cons_of_mem c h')
      simp [maxUpdatedAt, hc, hr]

/-- **C8.** If a refresh succeeds with write time `t`, then a second
refresh issued at any `tNext` with `tNext - t < 900` (any time strictly
less than 900 seconds after `t`) hits the cooldown gate: it raises the
cooldown HTTP 400 and performs zero store mutations, whatever the network
would answer. -/
theorem refresh_idempotent_within_cooldown (net netNext : ℚ → ℚ → NetOutcome)
    (cities : List City) (t tNext twNext : ℚ) (r : Redirect)
    (hok : (update_weather net cities t t).1 = .ok r)
    (hlt : tNext - t < 900) :
    update_weather netNext (update_weather net cities t t).2 tNext twNext =
      (.error cooldownError, (update_weather net cities t t).2) := by
  obtain ⟨hc, hne, ts, hg⟩ := update_weather_ok_inv net cities t t r hok
  have hlen := gatherTemps_ok_length net cities ts hg
  rw [update_weather_success net cities t t ts hc hne hg]
  apply update_weather_of_cooldown
  have hSne : ((cities.zip ts).map fun p =>
      { p.1 with temperature := some p.2, updated_at := some t }) ≠ [] := by
    intro hS
    have hlen0 : ((cities.zip ts).map fun p =>
        { p.1 with temperature := some p.2, updated_at := some t }).length = 0 := by
      rw [hS]
      rfl
    rw [zipMapStore_length cities ts t hlen] at hlen0
    exact hne (List.length_eq_zero.mp hlen0)
  have hall : ∀ c ∈ (cities.zip ts).map fun p =>
      { p.1 with temperature := some p.2, updated_at := some t },
      c.updated_at = some t := by
    intro c hcm
    obtain ⟨p, _, rfl⟩ := List.mem_map.mp hcm
    rfl
  unfold check_update_cooldown
  rw [maxUpdatedAt_const _ t hSne hall]
  simp only [ge_iff_le, decide_eq_false_iff_not, not_le]
  linarith

/-- **C10.** In a fully successful refresh cycle, the `i`-th city of the
list read from the store is updated with exactly the temperature fetched
for its own coordinates (the `zip` of cities with the gathered results
pairs positionally, never a permutation). -/
theorem refresh_pairs_city_with_own_fetch (net : ℚ → ℚ → NetOutcome)
    (cities : List City) (tc tw : ℚ)
    (hcool : check_update_cooldown cities tc = true) (hne : cities ≠ [])
    (hok : ∀ c ∈ cities, ∃ t, fetch_weather net c.latitude c.longitude = .ok t)
    (i : Nat) (hi : i < cities.length) (t : ℚ)
    (hfetch : fetch_weather net (cities.get ⟨i, hi⟩).latitude
        (cities.get ⟨i, hi⟩).longitude = .ok t) :
    ∃ hi2 : i < (update_weather net cities tc tw).2.length,
      (update_weather net cities tc tw).2.get ⟨i, hi2⟩ =
        { cities.get ⟨i, hi⟩ with
          temperature := some t, updated_at := some tw } := by
  obtain ⟨ts, hg⟩ := gatherTemps_ok_of_forall net cities hok
  have hlen := gatherTemps_ok_length net cities ts hg
  rw [update_weather_success net cities tc tw ts hcool hne hg]
  have hits : i < ts.length := hlen ▸ hi
  have hi2 : i < ((cities.zip ts).map fun p =>
      { p.1 with temperature := some p.2, updated_at := some tw }).length :=
    (zipMapStore_length cities ts tw hlen) ▸ hi
  refine ⟨hi2, ?_⟩
  rw [zipMapStore_get cities ts tw i hi hits hi2]
  have hget := gatherTemps_ok_get net cities ts hg i hi hits
  rw [hget] at hfetch
  injection hfetch with ht
  rw [ht]

/-! ### Concrete data: the §8 scenarios of the spec -/

/-- Paris of the §8 scenario, temperature and timestamp unset. -/
def paris : City := ⟨"Paris", 48.85, 2.35, none, none⟩

/-- Berlin of the §8 scenario, temperature and timestamp unset. -/
def berlin : City := ⟨"Berlin", 52.52, 13.4, none, none⟩

/-- Rome of the §8 scenario, temperature and timestamp unset. -/
def rome : City := ⟨"Rome", 41.9, 12.5, none, none⟩

/-- The three-city store of the §8 scenarios. -/
def scenarioCities : List City := [paris, berlin, rome]

/-- A city whose last update happened at time 1000: used to drive the
cooldown gate into refusal at times before 1900. -/
def athens : City := ⟨"Athens", 37.98, 23.72, some 21, some 1000⟩

/-- Mock network of the §8 success scenario: Paris answers 10.0, Berlin
15.0, Rome 20.0, any other coordinates 0. -/
def mockNet : ℚ → ℚ → NetOutcome := fun lat lon =>
  if lat = 48.85 ∧ lon = 2.35 then .response 200 (some (some 10))
  else if lat = 52.52 ∧ lon = 13.4 then .response 200 (some (some 15))
  else if lat = 41.9 ∧ lon = 12.5 then .response 200 (some (some 20))
  else .response 200 (some (some 0))

/-- Mock network of the §8 failure scenario: Berlin's fetch fails with a
transport error, every other fetch succeeds. -/
def netBerlinDown : ℚ → ℚ → NetOutcome := fun lat lon =>
  if lat = 52.52 ∧ lon = 13.4 then .clientError "connection refused"
  else .response 200 (some (some 10))

/-- A service that always answers with status 503. -/
def netDown : ℚ → ℚ → NetOutcome := fun _ _ => .response 503 none

/-- A transport that always fails. -/
def netRefused : ℚ → ℚ → NetOutcome := fun _ _ =>
  .clientError "Cannot connect to host"

/-- A service that answers 200 but without the temperature field. -/
def netNoField : ℚ → ℚ → NetOutcome := fun _ _ => .response 200 (some none)

theorem mockNet_fetch_paris :
    fetch_weather mockNet paris.latitude paris.longitude = .ok 10 := by
  norm_num [fetch_weather, mockNet, paris]

theorem mockNet_fetch_berlin :
    fetch_weather mockNet berlin.latitude berlin.longitude = .ok 15 := by
  norm_num [fetch_weather, mockNet, berlin]

theorem mockNet_fetch_rome :
    fetch_weather mockNet rome.latitude rome.longitude = .ok 20 := by
  norm_num [fetch_weather, mockNet, rome]

theorem mockNet_fetch_ok : ∀ c ∈ scenarioCities, ∃ t,
    fetch_weather mockNet c.latitude c.longitude = .ok t := by
  intro c hc
  simp only [scenarioCities, List.mem_cons, List.not_mem_nil, or_false] at hc
  rcases hc with rfl | rfl | rfl
  · exact ⟨10, mockNet_fetch_paris⟩
  · exact ⟨15, mockNet_fetch_berlin⟩
  · exact ⟨20, mockNet_fetch_rome⟩

theorem scenario_cooldown (now : ℚ) :
    check_update_cooldown scenarioCities now = true := by
  simp [check_update_cooldown, maxUpdatedAt, scenarioCities, paris, berlin, rome]

theorem athens_cooldown_false :
    check_update_cooldown [athens] 1500 = false := by
  norm_num [check_update_cooldown, maxUpdatedAt, athens]

theorem gatherTemps_one : gatherTemps mockNet [paris] = .ok [10] := by
  simp [gatherTemps, mockNet_fetch_paris]

theorem gatherTemps_two :
    gatherTemps mockNet [paris, berlin] = .ok [10, 15] := by
  simp [gatherTemps, mockNet_fetch_paris, mockNet_fetch_berlin]

theorem gatherTemps_three :
    gatherTemps mockNet scenarioCities = .ok [10, 15, 20] := by
  simp [scenarioCities, gatherTemps, mockNet_fetch_paris, mockNet_fetch_berlin,
    mockNet_fetch_rome]

theorem berlinDown_fetch_berlin :
    fetch_weather netBerlinDown berlin.latitude berlin.longitude =
      .error ⟨500, "网络请求错误：" ++ "connection refused"⟩ := by
  norm_num [fetch_weather, netBerlinDown, berlin]

/-! ### Witnesses instantiating the claims on the §8 scenarios -/

/-- C1 at the §8 partial-failure scenario: Berlin's fetch fails, the cycle
reports that failure and no city changes. -/
theorem refresh_failure_all_or_nothing_witness :
    (∃ e, (update_weather netBerlinDown scenarioCities 0 0).1 = .error e ∧
        ∃ c ∈ scenarioCities,
          fetch_weather netBerlinDown c.latitude c.longitude = .error e) ∧
      (update_weather netBerlinDown scenarioCities 0 0).2 = scenarioCities :=
  refresh_failure_all_or_nothing netBerlinDown scenarioCities 0 0
    (scenario_cooldown 0) (by simp [scenarioCities])
    ⟨berlin, by simp [scenarioCities],
      ⟨500, "网络请求错误：" ++ "connection refused"⟩, berlinDown_fetch_berlin⟩

/-- C3 at the §8 success scenario with write time 100. -/
theorem refresh_success_single_timestamp_witness :
    (update_weather mockNet scenarioCities 0 100).1 = .ok ⟨"/", 303⟩ ∧
      (update_weather mockNet scenarioCities 0 100).2.length
        = scenarioCities.length ∧
      (∀ c ∈ (update_weather mockNet scenarioCities 0 100).2,
        c.updated_at = some 100) ∧
      ∀ i, ∀ hi : i < scenarioCities.length, ∃ t,
        fetch_weather mockNet (scenarioCities.get ⟨i, hi⟩).latitude
            (scenarioCities.get ⟨i, hi⟩).longitude = .ok t ∧
          ∃ hi2 : i < (update_weather mockNet scenarioCities 0 100).2.length,
            ((update_weather mockNet scenarioCities 0 100).2.get
              ⟨i, hi2⟩).temperature = some t :=
  refresh_success_single_timestamp mockNet scenarioCities 0 100
    (scenario_cooldown 0) (by simp [scenarioCities]) mockNet_fetch_ok

/-- C4 with a store whose only city was updated at time 1000 and a second
request at time 1500: the gate refuses, nothing changes, and the outcome
is the same under a completely different network. -/
theorem cooldown_refusal_no_fetch_no_write_witness :
    update_weather mockNet [athens] 1500 1500 =
        (.error cooldownError, [athens]) ∧
      update_weather mockNet [athens] 1500 1500 =
        update_weather netBerlinDown [athens] 1500 2000 :=
  cooldown_refusal_no_fetch_no_write mockNet netBerlinDown [athens] 1500 1500 2000
    athens_cooldown_false

/-- C5 at three concrete network behaviours: a 503 response, a refused
connection, and a 200 response missing the temperature field. -/
theorem fetch_failure_classification_witness :
    (∃ e, fetch_weather netDown 0 0 = .error e ∧ isUpstreamUnavailable e) ∧
      (∃ e, fetch_weather netRefused 0 0 = .error e ∧ isNetworkError e) ∧
      (∃ e, fetch_weather netNoField 0 0 = .error e ∧ isMalformedResponse e) :=
  ⟨(fetch_failure_classification netDown 0 0).2.1 503 none rfl (by decide),
    (fetch_failure_classification netRefused 0 0).2.2.1
      "Cannot connect to host" rfl,
    (fetch_failure_classification netNoField 0 0).2.2.2 (some none) rfl rfl⟩

/-- **C6 (counterexample).** Two fully successful refresh cycles over
stores with different numbers of cities (one and two) return the very same
success value — the fixed redirect to `/` with status 303 — so the value
the operation returns on success does not carry the count of cities
updated, contrary to the claim. -/
theorem success_payload_carries_no_count :
    (update_weather mockNet [paris] 0 0).1 = .ok ⟨"/", 303⟩ ∧
      (update_weather mockNet [paris, berlin] 0 0).1 = .ok ⟨"/", 303⟩ ∧
      (update_weather mockNet [paris] 0 0).2.length = 1 ∧
      (update_weather mockNet [paris, berlin] 0 0).2.length = 2 := by
  have h1 := update_weather_success mockNet [paris] 0 0 [10]
    (by simp [check_update_cooldown, maxUpdatedAt, paris]) (by simp)
    gatherTemps_one
  have h2 := update_weather_success mockNet [paris, berlin] 0 0 [10, 15]
    (by simp [check_update_cooldown, maxUpdatedAt, paris, berlin]) (by simp)
    gatherTemps_two
  rw [h1, h2]
  exact ⟨rfl, rfl, rfl, rfl⟩

/-- C6 (amended) at the §8 success scenario. -/
theorem refresh_success_redirect_count_witness :
    (update_weather mockNet scenarioCities 0 50).1 = .ok ⟨"/", 303⟩ ∧
      (update_weather mockNet scenarioCities 0 50).2.length
        = scenarioCities.length :=
  refresh_success_redirect_count mockNet scenarioCities 0 50
    (scenario_cooldown 0) (by simp [scenarioCities]) mockNet_fetch_ok

/-- C7 on the §8 store: adding Athens, resetting to a one-city default
table, and refreshing all keep the pairing invariant. -/
theorem store_ops_preserve_pairing_witness :
    (∀ c ∈ (add_city scenarioCities "Athens" 37.98 23.72).2, pairedCity c) ∧
      (∀ c ∈ (reset_cities_to_default [⟨"Paris", 48.85, 2.35⟩]
        scenarioCities).2, pairedCity c) ∧
      (∀ c ∈ (update_weather mockNet scenarioCities 0 100).2, pairedCity c) :=
  store_ops_preserve_pairing scenarioCities [⟨"Paris", 48.85, 2.35⟩]
    "Athens" 37.98 23.72 mockNet 0 100
    (by
      intro c hc
      simp only [scenarioCities, List.mem_cons, List.not_mem_nil, or_false] at hc
      rcases hc with rfl | rfl | rfl <;> simp [pairedCity, paris, berlin, rome])

/-- C8 on the §8 store: a successful refresh at time 1000 followed by a
second request at time 1500 (500 seconds later) yields the cooldown error
and leaves the refreshed store untouched. -/
theorem refresh_idempotent_within_cooldown_witness :
    update_weather mockNet
        (update_weather mockNet scenarioCities 1000 1000).2 1500 1500 =
      (.error cooldownError,
        (update_weather mockNet scenarioCities 1000 1000).2) :=
  refresh_idempotent_within_cooldown mockNet mockNet scenarioCities 1000 1500 1500
    ⟨"/", 303⟩
    (by
      rw [update_weather_success mockNet scenarioCities 1000 1000 [10, 15, 20]
        (scenario_cooldown 1000) (by simp [scenarioCities]) gatherTemps_three])
    (by norm_num)

/-- C10 at the §8 success scenario: after the refresh, Paris holds 10.0,
Berlin 15.0 and Rome 20.0, each with the common write time 100. -/
theorem refresh_pairs_city_with_own_fetch_witness :
    (∃ h0 : 0 < (update_weather mockNet scenarioCities 0 100).2.length,
        (update_weather mockNet scenarioCities 0 100).2.get ⟨0, h0⟩ =
          { paris with temperature := some 10, updated_at := some 100 }) ∧
      (∃ h1 : 1 < (update_weather mockNet scenarioCities 0 100).2.length,
        (update_weather mockNet scenarioCities 0 100).2.get ⟨1, h1⟩ =
          { berlin with temperature := some 15, updated_at := some 100 }) ∧
      (∃ h2 : 2 < (update_weather mockNet scenarioCities 0 100).2.length,
        (update_weather mockNet scenarioCities 0 100).2.get ⟨2, h2⟩ =
          { rome with temperature := some 20, updated_at := some 100 }) :=
  ⟨refresh_pairs_city_with_own_fetch mockNet scenarioCities 0 100
      (scenario_cooldown 0) (by simp [scenarioCities]) mockNet_fetch_ok
      0 (by norm_num [scenarioCities]) 10 mockNet_fetch_paris,
    refresh_pairs_city_with_own_fetch mockNet scenarioCities 0 100
      (scenario_cooldown 0) (by simp [scenarioCities]) mockNet_fetch_ok
      1 (by norm_num [scenarioCities]) 15 mockNet_fetch_berlin,
    refresh_pairs_city_with_own_fetch mockNet scenarioCities 0 100
      (scenario_cooldown 0) (by simp [scenarioCities]) mockNet_fetch_ok
      2 (by norm_num [scenarioCities]) 20 mockNet_fetch_rome⟩

end WeatherApp
